import Mathlib

/-
Verification of the agent task-orchestration engine and sandboxed dynamic-code
execution subsystem of the consumer_assistant backend.

The development shallowly embeds the relevant Python code:
  * app/agents/advanced_consumption_agent.py  (planning, plan execution,
    parameter substitution, data filtering, report generation)
  * app/agents/base_agent.py                  (tool registry, prompt store,
    execute_plan)
  * app/utils/dynamic_chart_generator.py      (sandboxed chart rendering)
  * app/models/consumption.py                 (the Consumption data model)

Python values are modelled by the inductive `PyVal`; fallible Python code is
modelled with `Except String`, the error string carrying the Python exception
rendering.  Machine-level concerns (real floats, the actual matplotlib
rendering, the database) are abstracted behind environment records whose
fields are quantified over in the theorems.
-/

set_option maxRecDepth 4096

namespace PyJson

/-- Python values in the fragment the agent manipulates: the result type of
`json.loads`, tool parameters, tool results and plan records.  Finite floats
are exact rationals; the non-finite floats `nan`, `inf` and `-inf` (produced
by the `NaN`/`Infinity`/`-Infinity` extensions of `json.loads`) are separate
constructors, all truthy.  Python `dict`s are modelled as insertion-ordered
association lists with string keys (the only key type occurring in this code
base). -/
inductive PyVal where
  | none   : PyVal
  | bool   : Bool → PyVal
  | int    : Int → PyVal
  | float  : Rat → PyVal
  | nan    : PyVal
  | inf    : PyVal
  | neginf : PyVal
  | str    : String → PyVal
  | list   : List PyVal → PyVal
  | dict   : List (String × PyVal) → PyVal

/-- Python truthiness (`bool(v)`) for the modelled fragment. -/
def truthy : PyVal → Bool
  | PyVal.none => false
  | PyVal.bool b => b
  | PyVal.int n => !(n == 0)
  | PyVal.float q => !(q == 0)
  | PyVal.nan => true
  | PyVal.inf => true
  | PyVal.neginf => true
  | PyVal.str s => !(s == "")
  | PyVal.list xs => !xs.isEmpty
  | PyVal.dict xs => !xs.isEmpty

/-- Python dict assignment `d[k] = v`: replace the value in place when the key
is present, append the pair otherwise. -/
def dictSet {β : Type} : List (String × β) → String → β → List (String × β)
  | [], k, v => [(k, v)]
  | (k0, v0) :: rest, k, v =>
    if k0 = k then (k0, v) :: rest else (k0, v0) :: dictSet rest k v

/-- Python dict read `d.get(k)` (`None`-free variant: `Option`). -/
def dictGet {β : Type} (d : List (String × β)) (k : String) : Option β :=
  List.lookup k d

/-- Rebuild of a Python dict from a pair list as `json.loads` does it: pairs
are inserted left to right, so a duplicated key keeps its first position but
its last value. -/
def dictOfPairs (ps : List (String × PyVal)) : List (String × PyVal) :=
  ps.foldl (fun d p => dictSet d p.1 p.2) []

/-- Whitespace accepted between JSON tokens. -/
def isJsonWs (c : Char) : Bool :=
  c = ' ' || c = '\t' || c = '\n' || c = '\r'

def skipWs (cs : List Char) : List Char := cs.dropWhile isJsonWs

/-- The double-quote character. -/
def dq : Char := Char.ofNat 34

/-- The single-quote character. -/
def sq : Char := Char.ofNat 39

/-- The backslash character. -/
def bslash : Char := Char.ofNat 92

/-- The opening curly-brace character. -/
def lbraceC : Char := Char.ofNat 123

/-- The closing curly-brace character. -/
def rbraceC : Char := Char.ofNat 125

/-- Single-character JSON string escapes. -/
def unescape (c : Char) : Option Char :=
  if c = dq then some dq
  else if c = bslash then some bslash
  else if c = '/' then some '/'
  else if c = 'b' then some (Char.ofNat 8)
  else if c = 'f' then some (Char.ofNat 12)
  else if c = 'n' then some '\n'
  else if c = 'r' then some '\r'
  else if c = 't' then some '\t'
  else Option.none

def hexVal (c : Char) : Option Nat :=
  if '0' ≤ c ∧ c ≤ '9' then some (c.toNat - 48)
  else if 'a' ≤ c ∧ c ≤ 'f' then some (c.toNat - 87)
  else if 'A' ≤ c ∧ c ≤ 'F' then some (c.toNat - 55)
  else Option.none

/-- Parse the body of a JSON string after the opening quote; returns the
decoded characters and the remainder after the closing quote.  Unescaped
control characters are rejected (`json.loads` runs in strict mode). -/
def parseStrChars : List Char → Option (List Char × List Char)
  | [] => Option.none
  | c :: cs =>
    if c = dq then some ([], cs)
    else if c = bslash then
      match cs with
      | [] => Option.none
      | e :: cs2 =>
        if e = 'u' then
          match cs2 with
          | h1 :: h2 :: h3 :: h4 :: cs3 =>
            match hexVal h1, hexVal h2, hexVal h3, hexVal h4 with
            | some a, some b, some c4, some d =>
              match parseStrChars cs3 with
              | some (s, r) => some (Char.ofNat (((a * 16 + b) * 16 + c4) * 16 + d) :: s, r)
              | Option.none => Option.none
            | _, _, _, _ => Option.none
          | _ => Option.none
        else
          match unescape e with
          | some c2 =>
            match parseStrChars cs2 with
            | some (s, r) => some (c2 :: s, r)
            | Option.none => Option.none
          | Option.none => Option.none
    else if c.toNat < 32 then Option.none
    else
      match parseStrChars cs with
      | some (s, r) => some (c :: s, r)
      | Option.none => Option.none

def digitsToNat (ds : List Char) : Nat :=
  ds.foldl (fun n c => n * 10 + (c.toNat - 48)) 0

/-- Parse a JSON number (`-?(0|[1-9][0-9]*)(.[0-9]+)?([eE][+-]?[0-9]+)?`).
As in Python, a number without fraction and exponent parses to an `int`,
any other to a `float` (modelled exactly as a rational). -/
def parseNumber (cs : List Char) : Option (PyVal × List Char) :=
  let sgn : Bool × List Char :=
    match cs with
    | c :: t => if c = '-' then (true, t) else (false, cs)
    | [] => (false, [])
  let neg := sgn.1
  let cs1 := sgn.2
  let ip := cs1.takeWhile Char.isDigit
  let rest1 := cs1.dropWhile Char.isDigit
  if ip.isEmpty then Option.none
  else if ip.length > 1 && (ip.headD '0' == '0') then Option.none
  else
    let fr : List Char × List Char :=
      match rest1 with
      | c :: t => if c = '.' then (t.takeWhile Char.isDigit, t.dropWhile Char.isDigit) else ([], rest1)
      | [] => ([], [])
    let fracDigits := fr.1
    let rest2 := fr.2
    if (match rest1 with | c :: _ => c = '.' | [] => false) && fracDigits.isEmpty then Option.none
    else
      let ex : Bool × Bool × List Char × List Char :=
        match rest2 with
        | c :: t =>
          if c = 'e' || c = 'E' then
            match t with
            | s :: t2 =>
              if s = '+' then (true, false, t2.takeWhile Char.isDigit, t2.dropWhile Char.isDigit)
              else if s = '-' then (true, true, t2.takeWhile Char.isDigit, t2.dropWhile Char.isDigit)
              else (true, false, t.takeWhile Char.isDigit, t.dropWhile Char.isDigit)
            | [] => (true, false, [], [])
          else (false, false, [], rest2)
        | [] => (false, false, [], rest2)
      let hasExp := ex.1
      let expNeg := ex.2.1
      let expDigits := ex.2.2.1
      let rest3 := ex.2.2.2
      if hasExp && expDigits.isEmpty then Option.none
      else
        if hasExp || !fracDigits.isEmpty then
          let mantissa : Rat :=
            (digitsToNat ip : Rat) + (digitsToNat fracDigits : Rat) / ((10 : Rat) ^ fracDigits.length)
          let e : Int := if expNeg then -(digitsToNat expDigits : Int) else (digitsToNat expDigits : Int)
          let value : Rat := mantissa * (10 : Rat) ^ e
          some (PyVal.float (if neg then -value else value), rest3)
        else
          some (PyVal.int (if neg then -(digitsToNat ip : Int) else (digitsToNat ip : Int)), rest3)

/-- Match a literal token (`true`, `false`, `null`). -/
def parseLit (s : String) (v : PyVal) (cs : List Char) : Option (PyVal × List Char) :=
  if s.toList.isPrefixOf cs then some (v, cs.drop s.toList.length) else Option.none

/-- Result of one recursive-descent step: a value, the elements of an array
tail, or the members of an object tail. -/
inductive PRes where
  | v   : PyVal → PRes
  | vs  : List PyVal → PRes
  | kvs : List (String × PyVal) → PRes

/-- Parser mode: a single value, the element list of an array (after `[`,
known non-empty), or the member list of an object (after the opening brace,
known non-empty). -/
inductive PMode where
  | val | arr | obj

/-- Fuel-indexed recursive-descent JSON parser (the model of `json.loads`,
including its non-standard `NaN`/`Infinity`/`-Infinity` extensions, which
parse to the truthy non-finite float values). -/
def parseP : Nat → PMode → List Char → Option (PRes × List Char)
  | 0, _, _ => Option.none
  | Nat.succ f, PMode.val, cs =>
    match cs with
    | [] => Option.none
    | c :: rest =>
      if c = dq then
        match parseStrChars rest with
        | some (s, r) => some (PRes.v (PyVal.str (String.mk s)), r)
        | Option.none => Option.none
      else if c = '[' then
        let r1 := skipWs rest
        match r1 with
        | c2 :: r2 =>
          if c2 = ']' then some (PRes.v (PyVal.list []), r2)
          else
            match parseP f PMode.arr r1 with
            | some (PRes.vs xs, r3) => some (PRes.v (PyVal.list xs), r3)
            | _ => Option.none
        | [] => Option.none
      else if c = lbraceC then
        let r1 := skipWs rest
        match r1 with
        | c2 :: r2 =>
          if c2 = rbraceC then some (PRes.v (PyVal.dict []), r2)
          else
            match parseP f PMode.obj r1 with
            | some (PRes.kvs xs, r3) => some (PRes.v (PyVal.dict (dictOfPairs xs)), r3)
            | _ => Option.none
        | [] => Option.none
      else if c = 't' then
        match parseLit "true" (PyVal.bool true) cs with
        | some (v, r) => some (PRes.v v, r)
        | Option.none => Option.none
      else if c = 'f' then
        match parseLit "false" (PyVal.bool false) cs with
        | some (v, r) => some (PRes.v v, r)
        | Option.none => Option.none
      else if c = 'n' then
        match parseLit "null" PyVal.none cs with
        | some (v, r) => some (PRes.v v, r)
        | Option.none => Option.none
      else if c = 'N' then
        match parseLit "NaN" PyVal.nan cs with
        | some (v, r) => some (PRes.v v, r)
        | Option.none => Option.none
      else if c = 'I' then
        match parseLit "Infinity" PyVal.inf cs with
        | some (v, r) => some (PRes.v v, r)
        | Option.none => Option.none
      else if c = '-' then
        match parseLit "-Infinity" PyVal.neginf cs with
        | some (v, r) => some (PRes.v v, r)
        | Option.none =>
          match parseNumber cs with
          | some (v, r) => some (PRes.v v, r)
          | Option.none => Option.none
      else
        match parseNumber cs with
        | some (v, r) => some (PRes.v v, r)
        | Option.none => Option.none
  | Nat.succ f, PMode.arr, cs =>
    match parseP f PMode.val cs with
    | some (PRes.v x, rest) =>
      let r1 := skipWs rest
      match r1 with
      | c :: r2 =>
        if c = ',' then
          match parseP f PMode.arr (skipWs r2) with
          | some (PRes.vs xs, r3) => some (PRes.vs (x :: xs), r3)
          | _ => Option.none
        else if c = ']' then some (PRes.vs [x], r2)
        else Option.none
      | [] => Option.none
    | _ => Option.none
  | Nat.succ f, PMode.obj, cs =>
    match cs with
    | c :: rest =>
      if c = dq then
        match parseStrChars rest with
        | some (k, r1) =>
          let r2 := skipWs r1
          match r2 with
          | c2 :: r3 =>
            if c2 = ':' then
              match parseP f PMode.val (skipWs r3) with
              | some (PRes.v v, r4) =>
                let r5 := skipWs r4
                match r5 with
                | c3 :: r6 =>
                  if c3 = ',' then
                    match parseP f PMode.obj (skipWs r6) with
                    | some (PRes.kvs xs, r7) => some (PRes.kvs ((String.mk k, v) :: xs), r7)
                    | _ => Option.none
                  else if c3 = rbraceC then some (PRes.kvs [(String.mk k, v)], r6)
                  else Option.none
                | [] => Option.none
              | _ => Option.none
            else Option.none
          | [] => Option.none
        | Option.none => Option.none
      else Option.none
    | [] => Option.none

/-- Model of `json.loads`: parse one JSON value, allowing surrounding
whitespace, requiring the whole input to be consumed; `Option.none` models a
raised `json.JSONDecodeError`. -/
def json_loads (s : String) : Option PyVal :=
  let cs := skipWs s.toList
  match parseP (2 * cs.length + 2) PMode.val cs with
  | some (PRes.v x, rest) => if (skipWs rest).isEmpty then some x else Option.none
  | _ => Option.none

end PyJson

namespace Models

/-- The `Consumption` persistence model (app/models/consumption.py together
with the `BaseModel` fields of app/models/base.py).  `transaction_time` is
kept opaque as its rendered string; `amount` is a `DecimalField`, modelled as
a rational.  Note the model declares NO `description` and NO `payment_method`
field. -/
structure Consumption where
  id : Int
  user_id : Int
  transaction_time : String
  transaction_type : String
  amount : Rat
  merchant_name : String
  category : Option String
  is_deleted : Bool

end Models

namespace AdvancedAgent

open PyJson

/-- The planner of `AdvancedConsumptionAgent.plan`
(app/agents/advanced_consumption_agent.py, lines 159-189), as a function of
the raw LLM response text: `json.loads(response)` is returned unchanged on
success, and a `json.JSONDecodeError` is recovered by returning the empty
list. -/
def plan (response : String) : PyVal :=
  match json_loads response with
  | some v => v
  | Option.none => PyVal.list []

/-- The hard-coded default plan of `analyze_by_custom_needs`
(app/agents/advanced_consumption_agent.py, lines 576-609), verbatim. -/
def default_plan (user_id : Int) (start_date end_date analysis_needs : String) : PyVal :=
  PyVal.list
    [ PyVal.dict
        [ ("id", PyVal.str "1")
        , ("description", PyVal.str "获取消费数据")
        , ("tool", PyVal.str "fetch_consumption_data")
        , ("tool_params", PyVal.dict
            [ ("user_id", PyVal.int user_id)
            , ("start_date", PyVal.str start_date)
            , ("end_date", PyVal.str end_date) ])
        , ("priority", PyVal.str "高")
        , ("expected_result", PyVal.str "获取指定时间范围内的消费记录") ]
    , PyVal.dict
        [ ("id", PyVal.str "2")
        , ("description", PyVal.str "生成可视化图表")
        , ("tool", PyVal.str "generate_charts")
        , ("tool_params", PyVal.dict [])
        , ("priority", PyVal.str "中")
        , ("expected_result", PyVal.str "生成消费类别分布、趋势和收支总览图") ]
    , PyVal.dict
        [ ("id", PyVal.str "3")
        , ("description", PyVal.str "进行个性化分析")
        , ("tool", PyVal.str "analyze_data")
        , ("tool_params", PyVal.dict [("analysis_needs", PyVal.str analysis_needs)])
        , ("priority", PyVal.str "高")
        , ("expected_result", PyVal.str "根据用户需求生成详细分析") ]
    , PyVal.dict
        [ ("id", PyVal.str "4")
        , ("description", PyVal.str "生成最终报告")
        , ("tool", PyVal.str "generate_report")
        , ("tool_params", PyVal.dict
            [ ("user_id", PyVal.int user_id)
            , ("start_date", PyVal.str start_date)
            , ("end_date", PyVal.str end_date) ])
        , ("priority", PyVal.str "高")
        , ("expected_result", PyVal.str "生成包含分析和图表的Markdown和PDF报告") ] ]

/-- The plan that `analyze_by_custom_needs` goes on to execute
(app/agents/advanced_consumption_agent.py, lines 571-615): the planner's
value when it is truthy, the hard-coded default plan otherwise
(`if not plan: plan = [...]`). -/
def selected_plan (user_id : Int) (start_date end_date analysis_needs response : String) : PyVal :=
  let p := plan response
  if truthy p then p else default_plan user_id start_date end_date analysis_needs

/-- Number of tasks of a plan value (length of the underlying Python list). -/
def numTasks : PyVal → Nat
  | PyVal.list xs => xs.length
  | _ => 0

/-- Projection of one field out of every task record of a plan value. -/
def plan_field (p : PyVal) (k : String) : List PyVal :=
  match p with
  | PyVal.list xs =>
    xs.map (fun t =>
      match t with
      | PyVal.dict d => (dictGet d k).getD PyVal.none
      | _ => PyVal.none)
  | _ => []

/-- Spec-side notion backing claim C2: a task-like record is a JSON object;
valid structured plan data is an array of task-like records, or an object
holding such an array under the key `tasks`. -/
def isTaskLike : PyVal → Bool
  | PyVal.dict _ => true
  | _ => false

/-- Spec-side notion backing claim C2 (see `isTaskLike`). -/
def isValidPlanData : PyVal → Bool
  | PyVal.list xs => xs.all isTaskLike
  | PyVal.dict xs =>
    match dictGet xs "tasks" with
    | some (PyVal.list ys) => ys.all isTaskLike
    | _ => false
  | _ => false

end AdvancedAgent

namespace Exec

open PyJson

/-- Per-task outcome records of both executors: `analyze_by_custom_needs`
stores `{"success": True, "result": v}` on success and
`{"success": False, "error": msg}` on failure (base_agent.execute_plan adds a
`description` field, irrelevant to the claims). -/
inductive TaskOutcome where
  | success : PyVal → TaskOutcome
  | failure : String → TaskOutcome

/-- The intermediate-results mapping: a Python dict keyed by task id. -/
abbrev Results := List (String × TaskOutcome)

/-- The composite read `intermediate_results.get(tid, {}).get('result', default)`
(app/agents/advanced_consumption_agent.py, lines 625-632): a success record
yields its stored result, a failure record has no `result` key and yields the
default, and so does an absent task id. -/
def get_result (results : Results) (tid : String) (default : PyVal) : PyVal :=
  match List.lookup tid results with
  | some (TaskOutcome.success v) => v
  | some (TaskOutcome.failure _) => default
  | Option.none => default

/-- A task id that `failed` or is missing from the intermediate results. -/
def failed_or_absent (results : Results) (tid : String) : Prop :=
  match List.lookup tid results with
  | some (TaskOutcome.failure _) => True
  | Option.none => True
  | some (TaskOutcome.success _) => False

end Exec

namespace AdvancedAgent

open PyJson Exec

/-- A task record in the shape `analyze_by_custom_needs` expects: the loop
reads `task.get('id')`, `task.get('tool')` and `task.get('tool_params', {})`.
`tool` is `Option String` since the plan may carry `None`. -/
structure ATask where
  id : String
  description : String
  tool : Option String
  tool_params : List (String × PyVal)

/-- The environment of one `AdvancedConsumptionAgent` instance as seen by the
execution loop: which attribute names `getattr(self, name)` resolves, and what
calling the resolved method does (an `Except.error` models a raised
exception, carrying its rendered message). -/
structure AgentEnv where
  hasMethod : String → Bool
  invoke : String → List (String × PyVal) → Except String PyVal

/-- The hard-wired parameter substitution of `analyze_by_custom_needs`
(app/agents/advanced_consumption_agent.py, lines 623-635): task "2" and "3"
receive task "1"'s result (default `[]`), task "4" receives task "3"'s result
(default `''`) as `analysis_result` and task "2"'s result (default `[]`) as
`chart_paths`. -/
def substitute_params (tid : String) (params : List (String × PyVal)) (results : Results) :
    List (String × PyVal) :=
  if tid = "2" then dictSet params "consumptions" (get_result results "1" (PyVal.list []))
  else if tid = "3" then dictSet params "consumptions" (get_result results "1" (PyVal.list []))
  else if tid = "4" then
    let analysis_result := get_result results "3" (PyVal.str "")
    let chart_paths := get_result results "2" (PyVal.list [])
    dictSet (dictSet params "analysis_result" analysis_result) "chart_paths" chart_paths
  else params

/-- The `AttributeError` text `getattr(self, name)` raises for a name the
agent object does not have. -/
def attr_error (name : String) : String :=
  "AttributeError: 'AdvancedConsumptionAgent' object has no attribute '" ++ name ++ "'"

/-- One iteration of the execution loop of `analyze_by_custom_needs`
(app/agents/advanced_consumption_agent.py, lines 615-657): substitute
parameters, call `getattr(self, tool_name)(**tool_params)` and record the
outcome; every exception inside the `try` is caught and recorded as a failure
record, and the loop continues. -/
def run_task_outcome (env : AgentEnv) (results : Results) (t : ATask) : TaskOutcome :=
  let params := substitute_params t.id t.tool_params results
  match t.tool with
  | Option.none => TaskOutcome.failure "TypeError: attribute name must be string, not 'NoneType'"
  | some name =>
    if env.hasMethod name then
      match env.invoke name params with
      | Except.ok v => TaskOutcome.success v
      | Except.error msg => TaskOutcome.failure msg
    else TaskOutcome.failure (attr_error name)

/-- The full execution loop of `analyze_by_custom_needs` over a plan, starting
from the empty `intermediate_results` dict. -/
def analyze_execute (env : AgentEnv) (tasks : List ATask) : Results :=
  tasks.foldl (fun res t => dictSet res t.id (run_task_outcome env res t)) []

end AdvancedAgent

namespace BaseAgent

open PyJson Exec

/-- A task record in the shape `BaseAgent.execute_plan` expects. -/
structure BTask where
  id : String
  description : String
  tool : Option String
  tool_params : List (String × PyVal)

/-- The environment of a `BaseAgent`: the registered tool names (`self.tools`
keys), the behaviour of invoking a registered tool, and the behaviour of
`_process_task` (the no-tool branch, which consults the LLM). -/
structure BaseEnv where
  tools : List String
  invokeTool : String → List (String × PyVal) → Except String PyVal
  processTask : BTask → Except String PyVal

/-- Model of `BaseAgent.use_tool` (app/agents/base_agent.py, lines 116-130): invoke a
registered tool, else raise `ValueError(f"工具 {tool_name} 未注册")`. -/
def use_tool (env : BaseEnv) (name : String) (params : List (String × PyVal)) :
    Except String PyVal :=
  if env.tools.contains name then env.invokeTool name params
  else Except.error ("工具 " ++ name ++ " 未注册")

/-- Python truthiness of the `tool` field (`if tool_name:`). -/
def tool_truthy : Option String → Bool
  | Option.none => false
  | some s => !(s == "")

/-- One iteration of `BaseAgent.execute_plan` (app/agents/base_agent.py,
lines 199-227): a truthy tool name goes through `use_tool`, otherwise
`_process_task` runs; any exception is caught and recorded as a failure
record. -/
def base_task_outcome (env : BaseEnv) (t : BTask) : TaskOutcome :=
  let r :=
    match t.tool with
    | some s => if !(s == "") then use_tool env s t.tool_params else env.processTask t
    | Option.none => env.processTask t
  match r with
  | Except.ok v => TaskOutcome.success v
  | Except.error m => TaskOutcome.failure m

/-- Model of `BaseAgent.execute_plan` (app/agents/base_agent.py, lines 187-229). -/
def execute_plan (env : BaseEnv) (tasks : List BTask) : Results :=
  tasks.foldl (fun res t => dictSet res t.id (base_task_outcome env t)) []

/-- The seven tool names `AdvancedConsumptionAgent._register_tools` registers
(app/agents/advanced_consumption_agent.py, lines 104-118). -/
def advanced_registered_tools : List String :=
  [ "fetch_consumption_data", "filter_data", "generate_charts", "analyze_data"
  , "generate_suggestions", "market_research", "generate_report" ]

end BaseAgent

/-- Substring test (Python `needle in haystack` on strings). -/
def contains_sub (needle : List Char) : List Char → Bool
  | [] => needle.isEmpty
  | c :: rest => needle.isPrefixOf (c :: rest) || contains_sub needle rest

namespace AdvancedAgent

open PyJson Exec

/-- Persistence collaborators of `AdvancedConsumptionAgent.generate_report`
(app/agents/advanced_consumption_agent.py, lines 386-426): directory creation
(`os.makedirs`, outside the try), the primary
`save_markdown_and_convert_to_pdf` call, and the fallback plain-Markdown
write with its target path.  An `Except.error` models a raised exception. -/
structure ReportEnv where
  ensureDir : Except String Unit
  convertAndSave : Except String (List (String × PyVal))
  fallbackWrite : Except String Unit
  fallbackPath : String

/-- The persistence tail of `AdvancedConsumptionAgent.generate_report`
(app/agents/advanced_consumption_agent.py, lines 386-426).  The Markdown text
construction above it is pure string building and is elided (for the string
inputs the orchestration passes it cannot raise).  Every failure of the
primary persistence call is caught; the fallback write failure is caught too,
leaving the sentinel strings "保存失败"/"生成失败"; the function then returns
its path dict. -/
def generate_report (env : ReportEnv) : Except String (List (String × PyVal)) :=
  match env.ensureDir with
  | Except.error e => Except.error e
  | Except.ok _ =>
    match env.convertAndSave with
    | Except.ok result =>
      Except.ok
        [ ("markdown_path", (dictGet result "md_path").getD (PyVal.str "保存失败"))
        , ("pdf_path", (dictGet result "pdf_path").getD (PyVal.str "生成失败")) ]
    | Except.error _ =>
      match env.fallbackWrite with
      | Except.ok _ =>
        Except.ok
          [ ("markdown_path", PyVal.str env.fallbackPath)
          , ("pdf_path", PyVal.str "生成失败") ]
      | Except.error _ =>
        Except.ok
          [ ("markdown_path", PyVal.str "保存失败")
          , ("pdf_path", PyVal.str "生成失败") ]

end AdvancedAgent

namespace ChartGen

open PyJson Models

/-- The keys of the restricted namespace `_prepare_safe_execution_environment`
builds (app/utils/dynamic_chart_generator.py, lines 83-123). -/
def safe_env_keys : List String :=
  [ "os", "plt", "np", "pd", "datetime", "consumptions", "df", "output_dir"
  , "chart_filename", "plt.figure", "plt.savefig", "plt.close"
  , "plt.tight_layout", "__builtins__" ]

/-- The whitelisted `__builtins__` of the restricted namespace
(app/utils/dynamic_chart_generator.py, lines 97-122), in source order. -/
def safe_builtins : List String :=
  [ "abs", "all", "any", "__import__", "bool", "dict", "float", "int", "len"
  , "list", "max", "min", "range", "round", "sorted", "str", "sum", "tuple"
  , "zip", "print", "Exception", "ValueError", "KeyError", "TypeError" ]

/-- Spec-side whitelist backing claim C7: built-in operations limited to
arithmetic, comparisons, basic container construction, `print` and a narrow
set of exception types. -/
def claim_allowed_builtins : List String :=
  [ "abs", "all", "any", "bool", "dict", "float", "int", "len", "list", "max"
  , "min", "range", "round", "sorted", "str", "sum", "tuple", "zip", "print"
  , "Exception", "ValueError", "KeyError", "TypeError" ]

/-- Spec-side namespace keys backing claim C7: the tabular dataset view,
numeric/plotting primitives, `output_dir` and the builtins table — everything
the code exposes except the ambient `os` module. -/
def claim_allowed_env_keys : List String :=
  [ "plt", "np", "pd", "datetime", "consumptions", "df", "output_dir"
  , "chart_filename", "plt.figure", "plt.savefig", "plt.close"
  , "plt.tight_layout", "__builtins__" ]

/-- Python whitespace: the character class `\s` of the `re` module for `str`
patterns, which is the Unicode white-space characters together with the
separators U+001C-U+001F and U+0085 — code points 9-13, 28-32, 133, 160,
5760, 8192-8202, 8232, 8233, 8239, 8287 and 12288. -/
def isPySpace (c : Char) : Bool :=
  let n := c.toNat
  decide ((9 ≤ n ∧ n ≤ 13) ∨ (28 ≤ n ∧ n ≤ 32) ∨ n = 133 ∨ n = 160 ∨ n = 5760
    ∨ (8192 ≤ n ∧ n ≤ 8202) ∨ n = 8232 ∨ n = 8233 ∨ n = 8239 ∨ n = 8287 ∨ n = 12288)

/-- A Python quote character (the character class of the filename regex). -/
def isQuote (c : Char) : Bool := c = PyJson.sq || c = PyJson.dq

/-- The literal part of the filename regex of `_extract_chart_filename`. -/
def fnPat : List Char := "chart_filename".toList

/-- Match the regex of `_extract_chart_filename` anchored at the start of the
input; the pattern, per the source, reads over a run of whitespace, an equals
sign, whitespace, one quote, a run of non-quote characters (the captured
group) and one closing quote. -/
def matchAt (cs : List Char) : Option (List Char) :=
  if fnPat.isPrefixOf cs then
    let r1 := (cs.drop fnPat.length).dropWhile isPySpace
    match r1 with
    | c :: r2 =>
      if c = '=' then
        let r3 := r2.dropWhile isPySpace
        match r3 with
        | q :: r4 =>
          if isQuote q then
            let name := r4.takeWhile (fun x => !(isQuote x))
            let rest := r4.dropWhile (fun x => !(isQuote x))
            match rest with
            | _ :: _ => some name
            | [] => Option.none
          else Option.none
        | [] => Option.none
      else Option.none
    | [] => Option.none
  else Option.none

/-- Model of `re.search` with the filename pattern: the captured group of the
leftmost match, if any. -/
def findAssignment : List Char → Option (List Char)
  | [] => Option.none
  | c :: rest =>
    match matchAt (c :: rest) with
    | some name => some name
    | Option.none => findAssignment rest

/-- Model of `DynamicChartGenerator._extract_chart_filename`
(app/utils/dynamic_chart_generator.py, lines 127-145): the regex capture if
the pattern occurs in the code, else the timestamped default
`dynamic_chart_<timestamp>.png`; `now` stands for
`datetime.now().strftime("%Y%m%d_%H%M%S")`. -/
def extract_chart_filename (code : String) (now : String) : String :=
  match findAssignment code.toList with
  | some name => String.mk name
  | Option.none => "dynamic_chart_" ++ now ++ ".png"

/-- Declarative reading of the filename regex
`chart_filename\s*=\s*['"]([^'"]*)['"]`: the code contains, at some position,
the literal `chart_filename`, whitespace, `=`, whitespace, a quote, a
quote-free captured group and a closing quote. -/
def AssignAt (cs : List Char) (name : List Char) : Prop :=
  ∃ pre ws1 ws2 suf : List Char, ∃ q1 q2 : Char,
    cs = pre ++ fnPat ++ ws1 ++ '=' :: (ws2 ++ q1 :: (name ++ q2 :: suf))
    ∧ (∀ x ∈ ws1, isPySpace x = true) ∧ (∀ x ∈ ws2, isPySpace x = true)
    ∧ isQuote q1 = true ∧ isQuote q2 = true ∧ (∀ x ∈ name, isQuote x = false)

/-- Observable behaviour of executing one piece of model-authored chart code:
either it completes, having written the given files, or it raises with the
given rendered message.  This abstracts `exec(code, env)`. -/
inductive CodeBehavior where
  | ok : List String → CodeBehavior
  | raises : String → CodeBehavior

/-- A piece of model-authored code: its source text (scanned for the filename
assignment) and its execution behaviour. -/
structure ChartCode where
  source : String
  behavior : CodeBehavior

/-- Model of `DynamicChartGenerator.execute_chart_code`
(app/utils/dynamic_chart_generator.py, lines 147-208), traced statement by
statement against Python semantics; `fs` is the set of files on disk, the
returned pair is the chart path and the new file set.

* `_prepare_safe_execution_environment` runs before the `try`; with an empty
  record list `pd.DataFrame(data)` has no columns and
  `df['transaction_time']` raises `KeyError` (line 79) to the caller.
* If `exec` raises, the handler sets `error_occurred = True`; Python deletes
  the binding `e` when the `except` block ends, so the later placeholder
  branch (line 201), whose f-string evaluates `str(e)`, raises `NameError`
  to the caller.
* If `exec` completes without producing `chart_path`, the current figure is
  auto-saved there, so the returned path exists. -/
def execute_chart_code (output_dir now : String) (code : ChartCode)
    (consumptions : List Consumption) (fs : List String) :
    Except String (String × List String) :=
  if consumptions.isEmpty then
    Except.error "KeyError: 'transaction_time'"
  else
    let chart_filename := extract_chart_filename code.source now
    let chart_path := output_dir ++ "/" ++ chart_filename
    match code.behavior with
    | CodeBehavior.raises _ =>
      Except.error "NameError: name 'e' is not defined"
    | CodeBehavior.ok written =>
      let fs1 := fs ++ written
      let fs2 := if fs1.contains chart_path then fs1 else fs1 ++ [chart_path]
      Except.ok (chart_path, fs2)

end ChartGen

namespace AdvancedAgent

open PyJson Models Exec

/-- The filter conditions `filter_data` understands
(app/agents/advanced_consumption_agent.py, lines 240-258); a field is `some`
exactly when the corresponding key is present in the Python filters dict. -/
structure Filters where
  categories : Option (List String)
  min_amount : Option Rat
  max_amount : Option Rat
  keywords : Option (List String)

/-- Truthiness of the filters dict: `if not filters` is also taken when the
dict is present but empty. -/
def Filters.isEmptyDict (f : Filters) : Bool :=
  f.categories.isNone && f.min_amount.isNone && f.max_amount.isNone && f.keywords.isNone

/-- Python membership `consumption.category in filters["categories"]` where
`category` is a nullable column. -/
def category_in (c : Option String) (cats : List String) : Bool :=
  match c with
  | some s => cats.contains s
  | Option.none => false

/-- The per-record body of the `filter_data` loop
(app/agents/advanced_consumption_agent.py, lines 238-261).  The keyword
branch reads `consumption.description`, but the `Consumption` model
(app/models/consumption.py) declares no `description` field, so with a
non-empty keyword list the attribute access raises `AttributeError`; with an
empty keyword list `keywords_match` stays `False` and the record is
excluded. -/
def record_match (f : Filters) (c : Consumption) : Except String Bool :=
  let m1 : Bool := true
  let m2 :=
    match f.categories with
    | some cats => if !(category_in c.category cats) then false else m1
    | Option.none => m1
  let m3 :=
    match f.min_amount with
    | some lo => if c.amount < lo then false else m2
    | Option.none => m2
  let m4 :=
    match f.max_amount with
    | some hi => if hi < c.amount then false else m3
    | Option.none => m3
  match f.keywords with
  | Option.none => Except.ok m4
  | some [] => Except.ok false
  | some (_ :: _) =>
    Except.error "AttributeError: 'Consumption' object has no attribute 'description'"

/-- The accumulation loop of `filter_data`: records are visited in order and
appended to `filtered` when they match; the first raising record aborts. -/
def filter_loop (f : Filters) : List Consumption → Except String (List Consumption)
  | [] => Except.ok []
  | c :: rest =>
    match record_match f c with
    | Except.error e => Except.error e
    | Except.ok m =>
      match filter_loop f rest with
      | Except.error e => Except.error e
      | Except.ok tail => Except.ok (if m then c :: tail else tail)

/-- Model of `AdvancedConsumptionAgent.filter_data`
(app/agents/advanced_consumption_agent.py, lines 222-263). -/
def filter_data (consumptions : List Consumption) (filters : Option Filters) :
    Except String (List Consumption) :=
  match filters with
  | Option.none => Except.ok consumptions
  | some f => if f.isEmptyDict then Except.ok consumptions else filter_loop f consumptions

/-- Spec-side per-record predicate of claim C10: the record satisfies every
supplied condition — category membership, the amount bounds, and (had the
attribute existed) the keyword match; stated for the keyword-free filters the
code can actually evaluate. -/
def satisfiesFilters (f : Filters) (c : Consumption) : Bool :=
  (match f.categories with
   | some cats => category_in c.category cats
   | Option.none => true)
  && (match f.min_amount with
      | some lo => !(c.amount < lo)
      | Option.none => true)
  && (match f.max_amount with
      | some hi => !(hi < c.amount)
      | Option.none => true)

end AdvancedAgent

namespace BaseAgent

open PyJson

/-- The formatting fuel bound used by `py_format` and `template_scan`. -/
def fuelOf (cs : List Char) : Nat := cs.length + 1

/-- Fuel-indexed model of Python `str.format(**kwargs)` restricted to the
simple named fields this code base uses (no attribute access, indexing,
conversions or format specs appear in any registered template): literal text
is copied, `\x7b\x7b`/`\x7d\x7d` unescape to single braces, `\x7bname\x7d`
substitutes the keyword argument `name` and raises `KeyError` when it is
absent, a digits-only or empty field is positional and raises `IndexError`
(the call site passes no positional arguments), and an unmatched brace raises
`ValueError`. -/
def pyFormatF (subs : List (String × String)) : Nat → List Char → Except String (List Char)
  | 0, _ => Except.error "fuel exhausted"
  | _ + 1, [] => Except.ok []
  | f + 1, c :: cs =>
    if c = lbraceC then
      match cs with
      | [] => Except.error "ValueError: Single \x7b encountered in format string"
      | d :: cs2 =>
        if d = lbraceC then
          match pyFormatF subs f cs2 with
          | Except.ok s => Except.ok (lbraceC :: s)
          | Except.error e => Except.error e
        else
          let name := (d :: cs2).takeWhile (fun x => !(x == rbraceC))
          let rest := (d :: cs2).dropWhile (fun x => !(x == rbraceC))
          match rest with
          | [] => Except.error "ValueError: Single \x7b encountered in format string"
          | _ :: rest2 =>
            if name.all Char.isDigit then
              Except.error "IndexError: Replacement index out of range"
            else
              match List.lookup (String.mk name) subs with
              | some v =>
                match pyFormatF subs f rest2 with
                | Except.ok s => Except.ok (v.toList ++ s)
                | Except.error e => Except.error e
              | Option.none => Except.error ("KeyError: '" ++ String.mk name ++ "'")
    else if c = rbraceC then
      match cs with
      | d :: cs2 =>
        if d = rbraceC then
          match pyFormatF subs f cs2 with
          | Except.ok s => Except.ok (rbraceC :: s)
          | Except.error e => Except.error e
        else Except.error "ValueError: Single \x7d encountered in format string"
      | [] => Except.error "ValueError: Single \x7d encountered in format string"
    else
      match pyFormatF subs f cs with
      | Except.ok s => Except.ok (c :: s)
      | Except.error e => Except.error e

/-- Model of `template.format(**subs)` (see `pyFormatF`). -/
def py_format (subs : List (String × String)) (t : List Char) : Except String (List Char) :=
  pyFormatF subs (fuelOf t) t

/-- Spec-side scan of a template: `some refs` when the template is
structurally well formed and references exactly the named (non-positional)
fields in `refs`; `Option.none` on an unmatched brace or a positional
field. -/
def template_scan : Nat → List Char → Option (List String)
  | 0, _ => Option.none
  | _ + 1, [] => some []
  | f + 1, c :: cs =>
    if c = lbraceC then
      match cs with
      | [] => Option.none
      | d :: cs2 =>
        if d = lbraceC then template_scan f cs2
        else
          let name := (d :: cs2).takeWhile (fun x => !(x == rbraceC))
          let rest := (d :: cs2).dropWhile (fun x => !(x == rbraceC))
          match rest with
          | [] => Option.none
          | _ :: rest2 =>
            if name.all Char.isDigit then Option.none
            else
              match template_scan f rest2 with
              | some ns => some (String.mk name :: ns)
              | Option.none => Option.none
    else if c = rbraceC then
      match cs with
      | d :: cs2 => if d = rbraceC then template_scan f cs2 else Option.none
      | [] => Option.none
    else template_scan f cs

/-- Model of `BaseAgent.format_prompt` (app/agents/base_agent.py, lines 77-91): fetch
the template with `self.prompts.get(key)`; a missing key — and, by Python
truthiness, an empty template — returns `None` without error; otherwise the
result of `template.format(**kwargs)`, whose exceptions propagate. -/
def format_prompt (prompts : List (String × String)) (key : String)
    (subs : List (String × String)) : Except String (Option String) :=
  match List.lookup key prompts with
  | some t =>
    if !(t == "") then
      match py_format subs t.toList with
      | Except.ok cs => Except.ok (some (String.mk cs))
      | Except.error e => Except.error e
    else Except.ok Option.none
  | Option.none => Except.ok Option.none

/-- Discriminator for a raised exception. -/
def isError {α : Type} : Except String α → Bool
  | Except.error _ => true
  | Except.ok _ => false

end BaseAgent

namespace Fixtures

open PyJson Models Exec AdvancedAgent BaseAgent ChartGen

/-- A sample consumption record (mirroring test_dynamic_chart.py's data). -/
def c0 : Consumption :=
  { id := 1, user_id := 1, transaction_time := "2025-01-05 12:30:00"
  , transaction_type := "支出", amount := 150, merchant_name := "海底捞"
  , category := some "餐饮", is_deleted := false }

/-- A second sample consumption record in another category. -/
def c1 : Consumption :=
  { id := 2, user_id := 1, transaction_time := "2025-01-06 08:00:00"
  , transaction_type := "支出", amount := 50, merchant_name := "地铁"
  , category := some "交通", is_deleted := false }

/-- An agent environment whose `analyze_data` method raises and whose other
registered methods return `None`. -/
def exAgentEnv : AgentEnv :=
  { hasMethod := fun n => advanced_registered_tools.contains n
  , invoke := fun n _ =>
      if n = "analyze_data" then Except.error "RuntimeError: llm unavailable"
      else Except.ok PyVal.none }

/-- The four canonical tasks in `ATask` form (the shape the execution loop
reads out of the default plan). -/
def exPlan : List ATask :=
  [ { id := "1", description := "获取消费数据", tool := some "fetch_consumption_data"
    , tool_params := [("user_id", PyVal.int 1), ("start_date", PyVal.str "2025-01-01"), ("end_date", PyVal.str "2025-01-31")] }
  , { id := "2", description := "生成可视化图表", tool := some "generate_charts", tool_params := [] }
  , { id := "3", description := "进行个性化分析", tool := some "analyze_data"
    , tool_params := [("analysis_needs", PyVal.str "分析餐饮支出")] }
  , { id := "4", description := "生成最终报告", tool := some "generate_report"
    , tool_params := [("user_id", PyVal.int 1), ("start_date", PyVal.str "2025-01-01"), ("end_date", PyVal.str "2025-01-31")] } ]

/-- An intermediate-results state in which task "1" succeeded and tasks "2"
and "3" failed. -/
def exResults : Results :=
  [ ("1", TaskOutcome.success (PyVal.list [PyVal.str "row"]))
  , ("2", TaskOutcome.failure "RuntimeError: matplotlib unavailable")
  , ("3", TaskOutcome.failure "RuntimeError: llm unavailable") ]

/-- A base-agent environment carrying the seven registered tools, all of which
return `None` when invoked. -/
def exBaseEnv : BaseEnv :=
  { tools := advanced_registered_tools
  , invokeTool := fun _ _ => Except.ok PyVal.none
  , processTask := fun _ => Except.ok PyVal.none }

/-- A two-task plan whose first task names a tool that was never
registered. -/
def exBPlan : List BTask :=
  [ { id := "1", description := "调研", tool := some "nonexistent_tool", tool_params := [] }
  , { id := "2", description := "分析", tool := some "analyze_data", tool_params := [] } ]

/-- A report environment in which both the primary persistence call and the
fallback Markdown write fail. -/
def exReportFail : ReportEnv :=
  { ensureDir := Except.ok ()
  , convertAndSave := Except.error "OSError: disk full"
  , fallbackWrite := Except.error "OSError: disk full"
  , fallbackPath := "workspace/consumption_analysis_1_a_b_t.md" }

/-- A prompt store holding one template with one placeholder. -/
def exPrompts : List (String × String) :=
  [("custom_analysis", "用户分析需求：\x7banalysis_needs\x7d")]


/-- A report environment with a distinct fallback path, both persistence
calls failing with `ENOSPC`. -/
def exReportFail2 : ReportEnv :=
  { ensureDir := Except.ok ()
  , convertAndSave := Except.error "OSError: ENOSPC"
  , fallbackWrite := Except.error "OSError: ENOSPC"
  , fallbackPath := "workspace/consumption_analysis_2_c_d_t.md" }

end Fixtures

/-
Helper lemmas about the Python dict model and the executor folds.
-/

section DictLemmas

open PyJson Exec

theorem dictSet_keys_of_not_mem {β : Type} (d : List (String × β)) (k : String) (v : β)
    (h : k ∉ d.map Prod.fst) :
    (dictSet d k v).map Prod.fst = d.map Prod.fst ++ [k] := by
  induction d with
  | nil => rfl
  | cons p rest ih =>
    obtain ⟨k0, v0⟩ := p
    simp only [List.map_cons, List.mem_cons] at h
    push_neg at h
    simp only [dictSet]
    rw [if_neg (fun hk => h.1 hk.symm)]
    simp [ih h.2]

theorem lookup_cons_self {β : Type} (k : String) (v : β) (rest : List (String × β)) :
    List.lookup k ((k, v) :: rest) = some v := by
  simp [List.lookup]

theorem lookup_cons_ne {β : Type} (k k0 : String) (v0 : β) (rest : List (String × β))
    (h : k ≠ k0) :
    List.lookup k ((k0, v0) :: rest) = List.lookup k rest := by
  simp [List.lookup, beq_eq_false_iff_ne.mpr h]

theorem lookup_dictSet_self {β : Type} (d : List (String × β)) (k : String) (v : β) :
    List.lookup k (dictSet d k v) = some v := by
  induction d with
  | nil => simp [dictSet, lookup_cons_self]
  | cons p rest ih =>
    obtain ⟨k0, v0⟩ := p
    by_cases hk : k0 = k
    · subst hk; simp [dictSet, lookup_cons_self]
    · simp only [dictSet, if_neg hk]
      rw [lookup_cons_ne _ _ _ _ (fun h => hk h.symm)]
      exact ih

theorem lookup_dictSet_ne {β : Type} (d : List (String × β)) (k k' : String) (v : β)
    (h : k' ≠ k) :
    List.lookup k' (dictSet d k v) = List.lookup k' d := by
  induction d with
  | nil => simp [dictSet, List.lookup, beq_eq_false_iff_ne.mpr h]
  | cons p rest ih =>
    obtain ⟨k0, v0⟩ := p
    by_cases hk : k0 = k
    · subst hk
      rw [dictSet, if_pos rfl, lookup_cons_ne _ _ _ _ h, lookup_cons_ne _ _ _ _ h]
    · rw [dictSet, if_neg hk]
      by_cases hk' : k' = k0
      · subst hk'
        rw [lookup_cons_self, lookup_cons_self]
      · rw [lookup_cons_ne _ _ _ _ hk', lookup_cons_ne _ _ _ _ hk']
        exact ih

theorem lookup_isSome_of_mem_keys {β : Type} (d : List (String × β)) (k : String)
    (h : k ∈ d.map Prod.fst) : ∃ v, List.lookup k d = some v := by
  induction d with
  | nil => cases h
  | cons p rest ih =>
    obtain ⟨k0, v0⟩ := p
    simp only [List.map_cons, List.mem_cons] at h
    by_cases hk : k = k0
    · subst hk
      exact ⟨v0, lookup_cons_self _ _ _⟩
    · obtain ⟨v, hv⟩ := ih (h.resolve_left hk)
      exact ⟨v, by rw [lookup_cons_ne _ _ _ _ hk]; exact hv⟩

theorem foldl_insert_keys {τ : Type} (key : τ → String) (f : Results → τ → TaskOutcome) :
    ∀ (tasks : List τ) (acc : Results),
      (acc.map Prod.fst ++ tasks.map key).Nodup →
      (tasks.foldl (fun res t => dictSet res (key t) (f res t)) acc).map Prod.fst
        = acc.map Prod.fst ++ tasks.map key := by
  intro tasks
  induction tasks with
  | nil => intro acc _; simp
  | cons t rest ih =>
    intro acc h
    simp only [List.map_cons] at h
    have hparts := List.nodup_append.mp h
    have hnotin : key t ∉ acc.map Prod.fst := by
      intro hmem
      exact (hparts.2.2 hmem) (List.mem_cons_self _ _)
    have hkeys := dictSet_keys_of_not_mem acc (key t) (f acc t) hnotin
    have hshape : (acc.map Prod.fst ++ [key t]) ++ rest.map key
        = acc.map Prod.fst ++ (key t :: rest.map key) := by
      rw [List.append_assoc, List.singleton_append]
    have h2 : ((dictSet acc (key t) (f acc t)).map Prod.fst ++ rest.map key).Nodup := by
      rw [hkeys, hshape]; exact h
    simp only [List.foldl_cons, List.map_cons]
    rw [ih _ h2, hkeys, hshape]

theorem foldl_insert_lookup_frozen {τ : Type} (key : τ → String)
    (f : Results → τ → TaskOutcome) (k : String) :
    ∀ (tasks : List τ) (acc : Results), k ∉ tasks.map key →
      List.lookup k (tasks.foldl (fun res t => dictSet res (key t) (f res t)) acc)
        = List.lookup k acc := by
  intro tasks
  induction tasks with
  | nil => intro acc _; rfl
  | cons t rest ih =>
    intro acc h
    simp only [List.map_cons, List.mem_cons] at h
    push_neg at h
    simp only [List.foldl_cons]
    rw [ih _ h.2, lookup_dictSet_ne _ _ _ _ h.1]

theorem foldl_insert_lookup_const {τ : Type} (key : τ → String)
    (f : Results → τ → TaskOutcome) (t : τ) (o : TaskOutcome)
    (hconst : ∀ res, f res t = o) :
    ∀ (tasks : List τ) (acc : Results), t ∈ tasks →
      (acc.map Prod.fst ++ tasks.map key).Nodup →
      List.lookup (key t) (tasks.foldl (fun res t => dictSet res (key t) (f res t)) acc)
        = some o := by
  intro tasks
  induction tasks with
  | nil => intro acc h; cases h
  | cons t0 rest ih =>
    intro acc hmem hnd
    simp only [List.map_cons] at hnd
    have hparts := List.nodup_append.mp hnd
    have hnotin : key t0 ∉ acc.map Prod.fst := by
      intro hm
      exact (hparts.2.2 hm) (List.mem_cons_self _ _)
    simp only [List.foldl_cons]
    rcases List.mem_cons.mp hmem with rfl | hmem'
    · have hkt : key t ∉ rest.map key := by
        have := hparts.2.1
        exact (List.nodup_cons.mp this).1
      rw [foldl_insert_lookup_frozen key f _ rest _ hkt]
      rw [hconst, lookup_dictSet_self]
    · apply ih _ hmem'
      rw [dictSet_keys_of_not_mem _ _ _ hnotin, List.append_assoc, List.singleton_append]
      exact hnd

end DictLemmas

section SubstringLemmas

theorem isPrefixOf_refl (l : List Char) : l.isPrefixOf l = true := by
  induction l with
  | nil => rfl
  | cons c t ih => simp [List.isPrefixOf, ih]

theorem contains_sub_append_right (needle pre : List Char) :
    contains_sub needle (pre ++ needle) = true := by
  induction pre with
  | nil =>
    cases needle with
    | nil => rfl
    | cons c t => simp [contains_sub, isPrefixOf_refl]
  | cons c p ih => simp [contains_sub, ih]

end SubstringLemmas

section ExecLemmas

open PyJson Exec

theorem get_result_default (results : Results) (tid : String) (default : PyVal)
    (h : failed_or_absent results tid) :
    get_result results tid default = default := by
  unfold failed_or_absent at h
  unfold get_result
  cases hl : List.lookup tid results with
  | none => rfl
  | some o =>
    cases o with
    | success v => simp only [hl] at h
    | failure m => rfl

end ExecLemmas

/-
Claim theorems.
-/

/-- C3: for every plan whose task ids are pairwise distinct and every tool
behaviour (including failing tools), the execution loop of
`analyze_by_custom_needs` visits every task in plan order and terminates
with the execution-results mapping holding exactly one entry per task id, in
plan order, each entry being a success record or a failure record; a failure
of one task never prevents the later ones from being attempted, since the
keys below are exactly the plan's ids for arbitrary `env`. -/
theorem analyze_execute_one_entry_per_task (env : AdvancedAgent.AgentEnv)
    (tasks : List AdvancedAgent.ATask)
    (h : (tasks.map AdvancedAgent.ATask.id).Nodup) :
    (AdvancedAgent.analyze_execute env tasks).map Prod.fst
        = tasks.map AdvancedAgent.ATask.id
    ∧ (∀ t ∈ tasks, ∃ o,
        List.lookup t.id (AdvancedAgent.analyze_execute env tasks) = some o)
    ∧ (∀ e ∈ AdvancedAgent.analyze_execute env tasks,
        (∃ v, e.2 = Exec.TaskOutcome.success v) ∨ (∃ m, e.2 = Exec.TaskOutcome.failure m)) := by
  have hunfold : AdvancedAgent.analyze_execute env tasks
      = tasks.foldl
          (fun res t => PyJson.dictSet res (AdvancedAgent.ATask.id t)
            ((fun res t => AdvancedAgent.run_task_outcome env res t) res t)) [] := rfl
  have hkeys := foldl_insert_keys AdvancedAgent.ATask.id
      (fun res t => AdvancedAgent.run_task_outcome env res t) tasks [] (by simpa using h)
  refine ⟨by rw [hunfold]; simpa using hkeys, ?_, ?_⟩
  · intro t ht
    apply lookup_isSome_of_mem_keys
    rw [hunfold]
    rw [hkeys]
    exact List.mem_append_right _ (List.mem_map_of_mem _ ht)
  · intro e _
    cases he : e.2 with
    | success v => exact Or.inl ⟨v, rfl⟩
    | failure m => exact Or.inr ⟨m, rfl⟩

/-- C3 witness: the concrete 4-task canonical plan under an environment
whose `analyze_data` tool raises still yields one entry per task id, in
order. -/
theorem analyze_execute_one_entry_per_task_witness :
    (AdvancedAgent.analyze_execute Fixtures.exAgentEnv Fixtures.exPlan).map Prod.fst
      = Fixtures.exPlan.map AdvancedAgent.ATask.id :=
  (analyze_execute_one_entry_per_task Fixtures.exAgentEnv Fixtures.exPlan (by decide)).1

/-- C4: during parameter substitution, a result reference to a task that
failed or is absent from the intermediate results resolves to the declared
default value — the empty list for the consumption data consumed by tasks
"2" and "3" and for the chart data consumed by task "4", and the empty
string for the analysis result consumed by task "4"; the substitution
function is total, so it never raises, for every state of the mapping. -/
theorem substitute_params_defaults (results : Exec.Results)
    (params : List (String × PyJson.PyVal)) :
    (Exec.failed_or_absent results "1" →
      PyJson.dictGet (AdvancedAgent.substitute_params "2" params results) "consumptions"
        = some (PyJson.PyVal.list []))
    ∧ (Exec.failed_or_absent results "1" →
      PyJson.dictGet (AdvancedAgent.substitute_params "3" params results) "consumptions"
        = some (PyJson.PyVal.list []))
    ∧ (Exec.failed_or_absent results "3" →
      PyJson.dictGet (AdvancedAgent.substitute_params "4" params results) "analysis_result"
        = some (PyJson.PyVal.str ""))
    ∧ (Exec.failed_or_absent results "2" →
      PyJson.dictGet (AdvancedAgent.substitute_params "4" params results) "chart_paths"
        = some (PyJson.PyVal.list [])) := by
  have e2 : AdvancedAgent.substitute_params "2" params results
      = PyJson.dictSet params "consumptions"
          (Exec.get_result results "1" (PyJson.PyVal.list [])) := rfl
  have e3 : AdvancedAgent.substitute_params "3" params results
      = PyJson.dictSet params "consumptions"
          (Exec.get_result results "1" (PyJson.PyVal.list [])) := rfl
  have e4 : AdvancedAgent.substitute_params "4" params results
      = PyJson.dictSet
          (PyJson.dictSet params "analysis_result"
            (Exec.get_result results "3" (PyJson.PyVal.str "")))
          "chart_paths" (Exec.get_result results "2" (PyJson.PyVal.list [])) := rfl
  refine ⟨?_, ?_, ?_, ?_⟩
  · intro h
    rw [PyJson.dictGet, e2, get_result_default _ _ _ h, lookup_dictSet_self]
  · intro h
    rw [PyJson.dictGet, e3, get_result_default _ _ _ h, lookup_dictSet_self]
  · intro h
    rw [PyJson.dictGet, e4, lookup_dictSet_ne _ _ _ _ (by decide),
      get_result_default _ _ _ h, lookup_dictSet_self]
  · intro h
    rw [PyJson.dictGet, e4, get_result_default _ _ _ h, lookup_dictSet_self]

/-- C4 witness: with task "2" and task "3" recorded as failures, the
substituted parameters of task "4" carry the empty-string analysis result. -/
theorem substitute_params_defaults_witness :
    PyJson.dictGet (AdvancedAgent.substitute_params "4" [] Fixtures.exResults)
        "analysis_result" = some (PyJson.PyVal.str "") :=
  (substitute_params_defaults Fixtures.exResults []).2.2.1 (by trivial)

/-- C2 counterexample: the LLM response `[1]` is not valid structured plan
data (its element is no task-like record), yet the plan selected for
execution is `[1]` itself — with 1 task, not the canonical 4-step fallback —
so the claim fails at this input. -/
theorem planner_fallback_counterexample :
    PyJson.json_loads "[1]" = some (PyJson.PyVal.list [PyJson.PyVal.int 1])
    ∧ AdvancedAgent.isValidPlanData (PyJson.PyVal.list [PyJson.PyVal.int 1]) = false
    ∧ AdvancedAgent.selected_plan 1 "2025-01-01" "2025-01-31" "分析消费结构" "[1]"
        = PyJson.PyVal.list [PyJson.PyVal.int 1]
    ∧ AdvancedAgent.selected_plan 1 "2025-01-01" "2025-01-31" "分析消费结构" "[1]"
        ≠ AdvancedAgent.default_plan 1 "2025-01-01" "2025-01-31" "分析消费结构" :=
  ⟨rfl, rfl, rfl, fun h => absurd (congrArg AdvancedAgent.numTasks h) (by decide)⟩

/-- C2 (amended): for every LLM response whose JSON parse fails or parses to
a falsy value, the plan executed by `analyze_by_custom_needs` is exactly the
canonical deterministic 4-step fallback plan, whose task ids are "1".."4"
with tools fetch_consumption_data, generate_charts, analyze_data,
generate_report in that order, independent of the malformed input. -/
theorem planner_fallback_amended (uid : Int) (sd ed needs response : String)
    (h : PyJson.json_loads response = Option.none
       ∨ PyJson.truthy (AdvancedAgent.plan response) = false) :
    AdvancedAgent.selected_plan uid sd ed needs response
        = AdvancedAgent.default_plan uid sd ed needs
    ∧ AdvancedAgent.plan_field (AdvancedAgent.default_plan uid sd ed needs) "id"
        = [PyJson.PyVal.str "1", PyJson.PyVal.str "2", PyJson.PyVal.str "3",
           PyJson.PyVal.str "4"]
    ∧ AdvancedAgent.plan_field (AdvancedAgent.default_plan uid sd ed needs) "tool"
        = [PyJson.PyVal.str "fetch_consumption_data", PyJson.PyVal.str "generate_charts",
           PyJson.PyVal.str "analyze_data", PyJson.PyVal.str "generate_report"] := by
  refine ⟨?_, rfl, rfl⟩
  have hfalse : PyJson.truthy (AdvancedAgent.plan response) = false := by
    rcases h with h | h
    · simp [AdvancedAgent.plan, h, PyJson.truthy]
    · exact h
  simp [AdvancedAgent.selected_plan, hfalse]

/-- C2 witness: the unparsable response `not json` selects exactly the
canonical fallback plan. -/
theorem planner_fallback_witness :
    AdvancedAgent.selected_plan 1 "2025-01-01" "2025-01-31" "分析" "not json"
      = AdvancedAgent.default_plan 1 "2025-01-01" "2025-01-31" "分析" :=
  (planner_fallback_amended 1 "2025-01-01" "2025-01-31" "分析" "not json" (Or.inl rfl)).1

/-- C5 counterexample: a task naming the unregistered tool
`nonexistent_tool` is recorded as failed, but the recorded message is the
Chinese `工具 nonexistent_tool 未注册` raised by `use_tool`, which does not
contain the literal text `not registered`, so the claim fails at this
input. -/
theorem unregistered_tool_message_counterexample :
    List.lookup "1" (BaseAgent.execute_plan Fixtures.exBaseEnv Fixtures.exBPlan)
      = some (Exec.TaskOutcome.failure "工具 nonexistent_tool 未注册")
    ∧ contains_sub "not registered".toList "工具 nonexistent_tool 未注册".toList = false
    ∧ (BaseAgent.execute_plan Fixtures.exBaseEnv Fixtures.exBPlan).map Prod.fst
        = ["1", "2"] :=
  ⟨rfl, by decide, rfl⟩

/-- C5 (amended): for every plan with pairwise-distinct task ids containing a
task whose truthy `tool` field names a capability absent from the registry,
`execute_plan` records that task as failed with the `ValueError` message
`工具 <name> 未注册` (Chinese for "tool <name> not registered"), the message
contains `未注册`, the error is not raised to the caller, and every other
task is still attempted — the result keys are exactly the plan's ids in plan
order (the recorded plan itself is a separate, untouched value). -/
theorem unregistered_tool_recorded (env : BaseAgent.BaseEnv)
    (tasks : List BaseAgent.BTask) (t : BaseAgent.BTask) (name : String)
    (hmem : t ∈ tasks) (htool : t.tool = some name) (hne : name ≠ "")
    (hreg : env.tools.contains name = false)
    (hnd : (tasks.map BaseAgent.BTask.id).Nodup) :
    List.lookup t.id (BaseAgent.execute_plan env tasks)
      = some (Exec.TaskOutcome.failure ("工具 " ++ name ++ " 未注册"))
    ∧ contains_sub "未注册".toList ("工具 " ++ name ++ " 未注册").toList = true
    ∧ (BaseAgent.execute_plan env tasks).map Prod.fst = tasks.map BaseAgent.BTask.id := by
  have houtcome : ∀ res : Exec.Results,
      (fun (_ : Exec.Results) (t : BaseAgent.BTask) => BaseAgent.base_task_outcome env t) res t
        = Exec.TaskOutcome.failure ("工具 " ++ name ++ " 未注册") := by
    intro res
    show BaseAgent.base_task_outcome env t = _
    have hb : (name == "") = false := beq_eq_false_iff_ne.mpr hne
    simp only [BaseAgent.base_task_outcome, htool, hb, Bool.not_false, if_true]
    have hnm : name ∉ env.tools := by simpa using hreg
    simp [BaseAgent.use_tool, hreg, hnm]
  have hunfold : BaseAgent.execute_plan env tasks
      = tasks.foldl
          (fun res t => PyJson.dictSet res (BaseAgent.BTask.id t)
            ((fun (_ : Exec.Results) (t : BaseAgent.BTask) =>
                BaseAgent.base_task_outcome env t) res t)) [] := rfl
  refine ⟨?_, ?_, ?_⟩
  · rw [hunfold]
    exact foldl_insert_lookup_const BaseAgent.BTask.id _ t _ houtcome tasks [] hmem
      (by simpa using hnd)
  · have h1 : (" 未注册" : String).data = [' '] ++ ("未注册" : String).data := rfl
    have hmsg : ("工具 " ++ name ++ " 未注册").toList
        = (("工具 " : String).data ++ name.data ++ [' ']) ++ ("未注册" : String).toList := by
      simp only [String.toList, String.data_append, h1, List.append_assoc,
        List.singleton_append]
    rw [hmsg]
    exact contains_sub_append_right _ _
  · rw [hunfold]
    have := foldl_insert_keys BaseAgent.BTask.id
      (fun (_ : Exec.Results) (t : BaseAgent.BTask) => BaseAgent.base_task_outcome env t)
      tasks [] (by simpa using hnd)
    simpa using this

/-- C5 witness: the amended statement instantiated at the concrete
environment with the agent's seven registered tools and the two-task plan
whose first task names `nonexistent_tool`. -/
theorem unregistered_tool_recorded_witness :
    List.lookup "1" (BaseAgent.execute_plan Fixtures.exBaseEnv Fixtures.exBPlan)
      = some (Exec.TaskOutcome.failure ("工具 " ++ "nonexistent_tool" ++ " 未注册"))
    ∧ (BaseAgent.execute_plan Fixtures.exBaseEnv Fixtures.exBPlan).map Prod.fst
        = Fixtures.exBPlan.map BaseAgent.BTask.id := by
  have h := unregistered_tool_recorded Fixtures.exBaseEnv Fixtures.exBPlan
    { id := "1", description := "调研", tool := some "nonexistent_tool", tool_params := [] }
    "nonexistent_tool" (List.mem_cons_self _ _) rfl (by decide) (by decide) (by decide)
  exact ⟨h.1, h.2.2⟩

/-- C6 counterexample: with the directory present and both the primary
persistence call and the fallback Markdown write failing, `generate_report`
returns the sentinel path dict instead of surfacing the failure, so the
claim that a persistence failure propagates to the orchestration caller
fails at this input. -/
theorem report_persist_counterexample :
    AdvancedAgent.generate_report Fixtures.exReportFail
      = Except.ok [("markdown_path", PyJson.PyVal.str "保存失败"),
                   ("pdf_path", PyJson.PyVal.str "生成失败")]
    ∧ BaseAgent.isError (AdvancedAgent.generate_report Fixtures.exReportFail) = false :=
  ⟨rfl, rfl⟩

/-- C6 (amended): no failure while persisting the final report propagates out
of `generate_report` — whenever the workspace-directory creation succeeds,
the function returns a path dict for every persistence outcome, and when both
the primary `save_markdown_and_convert_to_pdf` call and the fallback Markdown
write fail it returns the sentinel strings 保存失败/生成失败 rather than
raising. -/
theorem generate_report_recovers_persist_errors (env : AdvancedAgent.ReportEnv)
    (h : env.ensureDir = Except.ok ()) :
    (∃ r, AdvancedAgent.generate_report env = Except.ok r)
    ∧ (∀ e e', env.convertAndSave = Except.error e →
        env.fallbackWrite = Except.error e' →
        AdvancedAgent.generate_report env
          = Except.ok [("markdown_path", PyJson.PyVal.str "保存失败"),
                       ("pdf_path", PyJson.PyVal.str "生成失败")]) := by
  constructor
  · unfold AdvancedAgent.generate_report
    rw [h]
    cases hc : env.convertAndSave with
    | ok result => exact ⟨_, rfl⟩
    | error e =>
      cases hf : env.fallbackWrite with
      | ok u => exact ⟨_, rfl⟩
      | error e' => exact ⟨_, rfl⟩
  · intro e e' hc hf
    unfold AdvancedAgent.generate_report
    rw [h, hc, hf]

/-- C6 witness: the amended statement instantiated at a concrete environment
whose two persistence calls fail with `ENOSPC`. -/
theorem generate_report_recovers_persist_errors_witness :
    AdvancedAgent.generate_report Fixtures.exReportFail2
      = Except.ok [("markdown_path", PyJson.PyVal.str "保存失败"),
                   ("pdf_path", PyJson.PyVal.str "生成失败")] :=
  (generate_report_recovers_persist_errors Fixtures.exReportFail2 rfl).2
    "OSError: ENOSPC" "OSError: ENOSPC" rfl rfl

/-- C7 counterexample: the execution namespace whitelists the `__import__`
builtin — which is none of the claim's allowed categories (arithmetic,
comparisons, container construction, print, exception types) — and exposes
the ambient `os` module, so arbitrary import and filesystem/process access
are reachable and the claim fails. -/
theorem sandbox_namespace_counterexample :
    ChartGen.safe_builtins.contains "__import__" = true
    ∧ ChartGen.claim_allowed_builtins.contains "__import__" = false
    ∧ ChartGen.safe_env_keys.contains "os" = true
    ∧ ChartGen.claim_allowed_env_keys.contains "os" = false := by decide

/-- C7 (amended): the execution namespace exposes exactly the claim's
items — the tabular dataset view, numeric/plotting primitives, `output_dir`,
and builtins limited to arithmetic, comparisons, container construction,
`print` and a narrow set of exception types — PLUS the `os` module and the
`__import__` builtin; through those two, arbitrary import and ambient
filesystem/process access are reachable from model-authored code. -/
theorem sandbox_namespace_amended :
    ChartGen.safe_builtins.all
      (fun b => ChartGen.claim_allowed_builtins.contains b || b == "__import__") = true
    ∧ ChartGen.safe_builtins.contains "__import__" = true
    ∧ ChartGen.safe_env_keys.all
      (fun k => ChartGen.claim_allowed_env_keys.contains k || k == "os") = true
    ∧ ChartGen.safe_env_keys.contains "os" = true
    ∧ ChartGen.claim_allowed_builtins.contains "__import__" = false
    ∧ ChartGen.claim_allowed_env_keys.contains "os" = false := by decide

/-- C1: evaluation of `execute_chart_code` at the failing inputs.  Code that
raises makes the renderer itself raise `NameError` (the placeholder branch
reads `e` after the `except` block unbound it) instead of returning a
placeholder path; an empty dataset raises `KeyError` out of
`_prepare_safe_execution_environment`; only the non-raising, non-empty case
returns a path that exists on disk. -/
theorem execute_chart_code_bug_eval :
    ChartGen.execute_chart_code "workspace/charts" "20250101_000000"
        { source := "raise ValueError('boom')"
        , behavior := ChartGen.CodeBehavior.raises "ValueError: boom" }
        [Fixtures.c0] []
      = Except.error "NameError: name 'e' is not defined"
    ∧ ChartGen.execute_chart_code "workspace/charts" "20250101_000000"
        { source := "plt.plot([1])", behavior := ChartGen.CodeBehavior.ok [] } [] []
      = Except.error "KeyError: 'transaction_time'"
    ∧ ChartGen.execute_chart_code "workspace/charts" "20250101_000000"
        { source := "plt.plot([1])", behavior := ChartGen.CodeBehavior.ok [] }
        [Fixtures.c0] []
      = Except.ok ("workspace/charts/dynamic_chart_20250101_000000.png",
          ["workspace/charts/dynamic_chart_20250101_000000.png"]) :=
  ⟨rfl, rfl, rfl⟩

/-- C10: evaluation of `filter_data` at its failing input.  A filters dict
carrying a non-empty keyword list raises `AttributeError` — the `Consumption`
model declares no `description` attribute — instead of returning the
keyword-filtered subsequence; keyword-free filters do return the
order-preserving matching subsequence, and absent filters return the input
unchanged. -/
theorem filter_data_keyword_bug_eval :
    AdvancedAgent.filter_data [Fixtures.c0]
        (some { categories := Option.none, min_amount := Option.none
              , max_amount := Option.none, keywords := some ["火锅"] })
      = Except.error "AttributeError: 'Consumption' object has no attribute 'description'"
    ∧ AdvancedAgent.filter_data [Fixtures.c0, Fixtures.c1]
        (some { categories := some ["餐饮"], min_amount := Option.none
              , max_amount := Option.none, keywords := Option.none })
      = Except.ok [Fixtures.c0]
    ∧ AdvancedAgent.filter_data [Fixtures.c0, Fixtures.c1] Option.none
      = Except.ok [Fixtures.c0, Fixtures.c1]
    ∧ AdvancedAgent.filter_data [Fixtures.c0, Fixtures.c1]
        (some { categories := Option.none, min_amount := Option.none
              , max_amount := Option.none, keywords := Option.none })
      = Except.ok [Fixtures.c0, Fixtures.c1] :=
  ⟨rfl, rfl, rfl, rfl⟩


section FormatLemmas

open PyJson BaseAgent

theorem template_scan_two (f : Nat) (c d : Char) (cs2 : List Char) :
    template_scan (f + 1) (c :: d :: cs2) =
      if c = lbraceC then
        (if d = lbraceC then template_scan f cs2
         else
           match List.dropWhile (fun x => !(x == rbraceC)) (d :: cs2) with
           | [] => Option.none
           | _ :: rest2 =>
             if (List.takeWhile (fun x => !(x == rbraceC)) (d :: cs2)).all Char.isDigit
             then Option.none
             else
               match template_scan f rest2 with
               | some ns =>
                 some (String.mk (List.takeWhile (fun x => !(x == rbraceC)) (d :: cs2)) :: ns)
               | Option.none => Option.none)
      else if c = rbraceC then
        (if d = rbraceC then template_scan f cs2 else Option.none)
      else template_scan f (d :: cs2) := rfl

theorem template_scan_one (f : Nat) (c : Char) :
    template_scan (f + 1) [c] =
      if c = lbraceC then Option.none
      else if c = rbraceC then Option.none
      else template_scan f [] := rfl

theorem pyFormatF_two (subs : List (String × String)) (f : Nat) (c d : Char)
    (cs2 : List Char) :
    pyFormatF subs (f + 1) (c :: d :: cs2) =
      if c = lbraceC then
        (if d = lbraceC then
           match pyFormatF subs f cs2 with
           | Except.ok s => Except.ok (lbraceC :: s)
           | Except.error e => Except.error e
         else
           match List.dropWhile (fun x => !(x == rbraceC)) (d :: cs2) with
           | [] => Except.error "ValueError: Single \x7b encountered in format string"
           | _ :: rest2 =>
             if (List.takeWhile (fun x => !(x == rbraceC)) (d :: cs2)).all Char.isDigit
             then Except.error "IndexError: Replacement index out of range"
             else
               match List.lookup
                   (String.mk (List.takeWhile (fun x => !(x == rbraceC)) (d :: cs2))) subs with
               | some v =>
                 match pyFormatF subs f rest2 with
                 | Except.ok s => Except.ok (v.toList ++ s)
                 | Except.error e => Except.error e
               | Option.none =>
                 Except.error ("KeyError: '"
                   ++ String.mk (List.takeWhile (fun x => !(x == rbraceC)) (d :: cs2)) ++ "'"))
      else if c = rbraceC then
        (if d = rbraceC then
           match pyFormatF subs f cs2 with
           | Except.ok s => Except.ok (rbraceC :: s)
           | Except.error e => Except.error e
         else Except.error "ValueError: Single \x7d encountered in format string")
      else
        match pyFormatF subs f (d :: cs2) with
        | Except.ok s => Except.ok (c :: s)
        | Except.error e => Except.error e := rfl

theorem pyFormatF_one (subs : List (String × String)) (f : Nat) (c : Char) :
    pyFormatF subs (f + 1) [c] =
      if c = lbraceC then
        Except.error "ValueError: Single \x7b encountered in format string"
      else if c = rbraceC then
        Except.error "ValueError: Single \x7d encountered in format string"
      else
        match pyFormatF subs f [] with
        | Except.ok s => Except.ok (c :: s)
        | Except.error e => Except.error e := rfl

theorem pyFormatF_field_eq (subs : List (String × String)) (f : Nat) (c d : Char)
    (cs2 : List Char) (r : Char) (rest2 : List Char)
    (hc : c = lbraceC) (hd : ¬d = lbraceC)
    (hrest : List.dropWhile (fun x => !(x == rbraceC)) (d :: cs2) = r :: rest2)
    (hdig : ¬((List.takeWhile (fun x => !(x == rbraceC)) (d :: cs2)).all Char.isDigit = true)) :
    pyFormatF subs (f + 1) (c :: d :: cs2) =
      match List.lookup
          (String.mk (List.takeWhile (fun x => !(x == rbraceC)) (d :: cs2))) subs with
      | some v =>
        match pyFormatF subs f rest2 with
        | Except.ok s => Except.ok (v.toList ++ s)
        | Except.error e => Except.error e
      | Option.none =>
        Except.error ("KeyError: '"
          ++ String.mk (List.takeWhile (fun x => !(x == rbraceC)) (d :: cs2)) ++ "'") := by
  subst hc
  rw [pyFormatF_two, if_pos rfl, if_neg hd, hrest]
  exact if_neg hdig

end FormatLemmas

/-- Relation between the template scan and the formatter: on a template the
scan accepts with reference list `refs`, formatting succeeds when every
referenced name is supplied, and raises the `KeyError` of some missing
referenced name when one is not. -/
theorem pyFormatF_spec (subs : List (String × String)) :
    ∀ (f : Nat) (t : List Char) (refs : List String),
      BaseAgent.template_scan f t = some refs →
      ((∀ n ∈ refs, (List.lookup n subs).isSome) →
        ∃ out, BaseAgent.pyFormatF subs f t = Except.ok out)
      ∧ (∀ n0, n0 ∈ refs → List.lookup n0 subs = Option.none →
        ∃ m, m ∈ refs ∧ List.lookup m subs = Option.none
          ∧ BaseAgent.pyFormatF subs f t = Except.error ("KeyError: '" ++ m ++ "'")) := by
  intro f
  induction f with
  | zero =>
    intro t refs hscan
    exact absurd hscan (by simp [BaseAgent.template_scan])
  | succ f ih =>
    intro t refs hscan
    cases t with
    | nil =>
      have h0 : ([] : List String) = refs := Option.some.inj hscan
      subst h0
      refine ⟨fun _ => ⟨[], rfl⟩, fun n0 hn0 _ => absurd hn0 (List.not_mem_nil n0)⟩
    | cons c cs =>
      cases cs with
      | nil =>
        rw [template_scan_one] at hscan
        by_cases hc : c = PyJson.lbraceC
        · rw [if_pos hc] at hscan; exact absurd hscan (by simp)
        · rw [if_neg hc] at hscan
          by_cases hc2 : c = PyJson.rbraceC
          · rw [if_pos hc2] at hscan; exact absurd hscan (by simp)
          · rw [if_neg hc2] at hscan
            obtain ⟨hfirst, hsecond⟩ := ih [] refs hscan
            constructor
            · intro hall
              obtain ⟨out, hout⟩ := hfirst hall
              exact ⟨c :: out, by rw [pyFormatF_one, if_neg hc, if_neg hc2, hout]⟩
            · intro n0 hn0 hmiss
              obtain ⟨m, hm, hmm, herr⟩ := hsecond n0 hn0 hmiss
              exact ⟨m, hm, hmm, by rw [pyFormatF_one, if_neg hc, if_neg hc2, herr]⟩
      | cons d cs2 =>
        rw [template_scan_two] at hscan
        by_cases hc : c = PyJson.lbraceC
        · rw [if_pos hc] at hscan
          by_cases hd : d = PyJson.lbraceC
          · rw [if_pos hd] at hscan
            obtain ⟨hfirst, hsecond⟩ := ih cs2 refs hscan
            constructor
            · intro hall
              obtain ⟨out, hout⟩ := hfirst hall
              exact ⟨PyJson.lbraceC :: out,
                by rw [pyFormatF_two, if_pos hc, if_pos hd, hout]⟩
            · intro n0 hn0 hmiss
              obtain ⟨m, hm, hmm, herr⟩ := hsecond n0 hn0 hmiss
              exact ⟨m, hm, hmm, by rw [pyFormatF_two, if_pos hc, if_pos hd, herr]⟩
          · rw [if_neg hd] at hscan
            cases hrest : List.dropWhile (fun x => !(x == PyJson.rbraceC)) (d :: cs2) with
            | nil => rw [hrest] at hscan; exact absurd hscan (by simp)
            | cons r rest2 =>
              rw [hrest] at hscan
              replace hscan :
                  (if (List.takeWhile (fun x => !(x == PyJson.rbraceC)) (d :: cs2)).all
                        Char.isDigit
                   then Option.none
                   else
                     match BaseAgent.template_scan f rest2 with
                     | some ns =>
                       some (String.mk
                          (List.takeWhile (fun x => !(x == PyJson.rbraceC)) (d :: cs2)) :: ns)
                     | Option.none => Option.none) = some refs := hscan
              by_cases hdig :
                  (List.takeWhile (fun x => !(x == PyJson.rbraceC)) (d :: cs2)).all Char.isDigit
              · rw [if_pos hdig] at hscan; exact absurd hscan (by simp)
              · rw [if_neg hdig] at hscan
                cases hscan2 : BaseAgent.template_scan f rest2 with
                | none => rw [hscan2] at hscan; exact absurd hscan (by simp)
                | some ns =>
                  rw [hscan2] at hscan
                  have hrefs : refs
                      = String.mk (List.takeWhile (fun x => !(x == PyJson.rbraceC)) (d :: cs2))
                        :: ns := (Option.some.inj hscan).symm
                  obtain ⟨hfirst, hsecond⟩ := ih rest2 ns hscan2
                  constructor
                  · intro hall
                    have hnmem :
                        String.mk (List.takeWhile (fun x => !(x == PyJson.rbraceC)) (d :: cs2))
                          ∈ refs := by
                      rw [hrefs]; exact List.mem_cons_self _ _
                    obtain ⟨v, hv⟩ := Option.isSome_iff_exists.mp (hall _ hnmem)
                    have hall2 : ∀ n ∈ ns, (List.lookup n subs).isSome := by
                      intro n hn
                      exact hall n (by rw [hrefs]; exact List.mem_cons_of_mem _ hn)
                    obtain ⟨out, hout⟩ := hfirst hall2
                    refine ⟨v.toList ++ out, ?_⟩
                    rw [pyFormatF_field_eq subs f c d cs2 r rest2 hc hd hrest hdig, hv, hout]
                  · intro n0 hn0 hmiss
                    cases hlk : List.lookup
                        (String.mk (List.takeWhile (fun x => !(x == PyJson.rbraceC)) (d :: cs2)))
                        subs with
                    | none =>
                      refine ⟨_, by rw [hrefs]; exact List.mem_cons_self _ _, hlk, ?_⟩
                      rw [pyFormatF_field_eq subs f c d cs2 r rest2 hc hd hrest hdig, hlk]
                    | some v =>
                      have hn0' : n0 ∈ ns := by
                        rw [hrefs] at hn0
                        rcases List.mem_cons.mp hn0 with h | h
                        · rw [h] at hmiss; rw [hlk] at hmiss; cases hmiss
                        · exact h
                      obtain ⟨m, hm, hmm, herr⟩ := hsecond n0 hn0' hmiss
                      refine ⟨m, by rw [hrefs]; exact List.mem_cons_of_mem _ hm, hmm, ?_⟩
                      rw [pyFormatF_field_eq subs f c d cs2 r rest2 hc hd hrest hdig, hlk, herr]
        · rw [if_neg hc] at hscan
          by_cases hc2 : c = PyJson.rbraceC
          · rw [if_pos hc2] at hscan
            by_cases hd : d = PyJson.rbraceC
            · rw [if_pos hd] at hscan
              obtain ⟨hfirst, hsecond⟩ := ih cs2 refs hscan
              constructor
              · intro hall
                obtain ⟨out, hout⟩ := hfirst hall
                exact ⟨PyJson.rbraceC :: out,
                  by rw [pyFormatF_two, if_neg hc, if_pos hc2, if_pos hd, hout]⟩
              · intro n0 hn0 hmiss
                obtain ⟨m, hm, hmm, herr⟩ := hsecond n0 hn0 hmiss
                exact ⟨m, hm, hmm,
                  by rw [pyFormatF_two, if_neg hc, if_pos hc2, if_pos hd, herr]⟩
            · rw [if_neg hd] at hscan; exact absurd hscan (by simp)
          · rw [if_neg hc2] at hscan
            obtain ⟨hfirst, hsecond⟩ := ih (d :: cs2) refs hscan
            constructor
            · intro hall
              obtain ⟨out, hout⟩ := hfirst hall
              exact ⟨c :: out, by rw [pyFormatF_two, if_neg hc, if_neg hc2, hout]⟩
            · intro n0 hn0 hmiss
              obtain ⟨m, hm, hmm, herr⟩ := hsecond n0 hn0 hmiss
              exact ⟨m, hm, hmm, by rw [pyFormatF_two, if_neg hc, if_neg hc2, herr]⟩

/-- C8 counterexample: with a key that was never registered, `format_prompt`
does not fail with any error — it returns `None` — so the claim that it fails
with a `MissingTemplateKey` error is false at this input. -/
theorem format_prompt_unregistered_counterexample :
    BaseAgent.format_prompt [] "custom_analysis" [] = Except.ok Option.none
    ∧ BaseAgent.isError (BaseAgent.format_prompt [] "custom_analysis" []) = false :=
  ⟨rfl, rfl⟩

/-- C8 (amended): `format_prompt` returns `None` without raising when the key
was never registered; for a registered non-empty template (well formed for
the scan), it returns the fully substituted template when every referenced
substitution name is supplied, and raises a `KeyError` naming some missing
referenced substitution when one is not. -/
theorem format_prompt_spec (prompts : List (String × String)) (key : String)
    (subs : List (String × String)) :
    (List.lookup key prompts = Option.none →
      BaseAgent.format_prompt prompts key subs = Except.ok Option.none)
    ∧ (∀ t refs, List.lookup key prompts = some t → (t == "") = false →
        BaseAgent.template_scan (BaseAgent.fuelOf t.toList) t.toList = some refs →
        ((∀ n ∈ refs, (List.lookup n subs).isSome) →
          ∃ out, BaseAgent.format_prompt prompts key subs = Except.ok (some out))
        ∧ (∀ n0, n0 ∈ refs → List.lookup n0 subs = Option.none →
          ∃ m, m ∈ refs ∧ List.lookup m subs = Option.none
            ∧ BaseAgent.format_prompt prompts key subs
                = Except.error ("KeyError: '" ++ m ++ "'"))) := by
  constructor
  · intro h
    unfold BaseAgent.format_prompt
    rw [h]
  · intro t refs hkey hne hscan
    obtain ⟨hfirst, hsecond⟩ := pyFormatF_spec subs (BaseAgent.fuelOf t.toList) t.toList refs hscan
    have hfmt : BaseAgent.format_prompt prompts key subs
        = match BaseAgent.py_format subs t.toList with
          | Except.ok cs => Except.ok (some (String.mk cs))
          | Except.error e => Except.error e := by
      unfold BaseAgent.format_prompt
      rw [hkey]
      show (if (!(t == "")) = true
            then match BaseAgent.py_format subs t.toList with
                 | Except.ok cs => Except.ok (some (String.mk cs))
                 | Except.error e => Except.error e
            else Except.ok Option.none) = _
      rw [hne]
      rfl
    constructor
    · intro hall
      obtain ⟨out, hout⟩ := hfirst hall
      refine ⟨String.mk out, ?_⟩
      rw [hfmt, BaseAgent.py_format, hout]
    · intro n0 hn0 hmiss
      obtain ⟨m, hm, hmm, herr⟩ := hsecond n0 hn0 hmiss
      refine ⟨m, hm, hmm, ?_⟩
      rw [hfmt, BaseAgent.py_format, herr]

/-- C8 witness: the amended statement instantiated at a one-template store
whose single placeholder `analysis_needs` is not supplied, yielding the
`KeyError` naming it. -/
theorem format_prompt_spec_witness :
    BaseAgent.format_prompt Fixtures.exPrompts "custom_analysis" []
      = Except.error "KeyError: 'analysis_needs'" := by
  have h := (format_prompt_spec Fixtures.exPrompts "custom_analysis" []).2
    "用户分析需求：\x7banalysis_needs\x7d" ["analysis_needs"] rfl rfl rfl
  obtain ⟨m, hm, _, heq⟩ := h.2 "analysis_needs" (List.mem_cons_self _ _) rfl
  have hm' : m = "analysis_needs" := by simpa using hm
  rw [hm'] at heq
  exact heq

section ScanLemmas

open ChartGen

theorem drop_append_self {α : Type} (l t : List α) : (l ++ t).drop l.length = t := by
  induction l with
  | nil => rfl
  | cons a l ih => simp [ih]

theorem isPrefixOf_append_self (l t : List Char) : l.isPrefixOf (l ++ t) = true := by
  induction l with
  | nil => simp [List.isPrefixOf]
  | cons a l ih => simp [List.isPrefixOf, ih]

theorem isPrefixOf_exists (l cs : List Char) (h : l.isPrefixOf cs = true) :
    ∃ t, cs = l ++ t := by
  induction l generalizing cs with
  | nil => exact ⟨cs, rfl⟩
  | cons a l ih =>
    cases cs with
    | nil => simp [List.isPrefixOf] at h
    | cons b cs' =>
      simp only [List.isPrefixOf, Bool.and_eq_true, beq_iff_eq] at h
      obtain ⟨t, ht⟩ := ih cs' h.2
      exact ⟨t, by rw [h.1, ht]; rfl⟩

theorem takeWhile_append_dropWhile_self {α : Type} (p : α → Bool) (l : List α) :
    l.takeWhile p ++ l.dropWhile p = l := by
  induction l with
  | nil => rfl
  | cons a l ih =>
    by_cases hpa : p a = true
    · simp [List.takeWhile, List.dropWhile, hpa, ih]
    · simp [List.takeWhile, List.dropWhile, hpa]

theorem mem_takeWhile_sat {α : Type} (p : α → Bool) :
    ∀ (l : List α) (x : α), x ∈ l.takeWhile p → p x = true := by
  intro l
  induction l with
  | nil => intro x hx; cases hx
  | cons a l ih =>
    intro x hx
    by_cases hpa : p a = true
    · rw [List.takeWhile_cons, if_pos hpa] at hx
      rcases List.mem_cons.mp hx with h | h
      · rw [h]; exact hpa
      · exact ih x h
    · rw [List.takeWhile_cons, if_neg hpa] at hx
      cases hx

theorem dropWhile_cons_head {α : Type} (p : α → Bool) :
    ∀ (l : List α) (a : α) (t : List α), l.dropWhile p = a :: t → p a = false := by
  intro l
  induction l with
  | nil => intro a t h; cases h
  | cons b l ih =>
    intro a t h
    by_cases hpb : p b = true
    · rw [List.dropWhile_cons, if_pos hpb] at h
      exact ih a t h
    · rw [List.dropWhile_cons, if_neg hpb] at h
      have hb : b = a := (List.cons.injEq _ _ _ _ ▸ h).1
      rw [← hb]
      exact Bool.not_eq_true _ ▸ hpb

theorem dropWhile_append_sat {α : Type} (p : α → Bool) (ws : List α) (x : α) (t : List α)
    (hws : ∀ c ∈ ws, p c = true) (hx : p x = false) :
    (ws ++ x :: t).dropWhile p = x :: t := by
  induction ws with
  | nil => simp [List.dropWhile_cons, hx]
  | cons a ws ih =>
    have hpa : p a = true := hws a (List.mem_cons_self _ _)
    rw [List.cons_append, List.dropWhile_cons, if_pos hpa]
    exact ih (fun c hc => hws c (List.mem_cons_of_mem _ hc))

theorem takeWhile_append_sat {α : Type} (p : α → Bool) (ws : List α) (x : α) (t : List α)
    (hws : ∀ c ∈ ws, p c = true) (hx : p x = false) :
    (ws ++ x :: t).takeWhile p = ws := by
  induction ws with
  | nil => simp [List.takeWhile_cons, hx]
  | cons a ws ih =>
    have hpa : p a = true := hws a (List.mem_cons_self _ _)
    rw [List.cons_append, List.takeWhile_cons, if_pos hpa,
      ih (fun c hc => hws c (List.mem_cons_of_mem _ hc))]

theorem isQuote_not_space (c : Char) (h : isQuote c = true) : isPySpace c = false := by
  simp only [isQuote, Bool.or_eq_true, decide_eq_true_eq] at h
  rcases h with h | h <;> subst h <;> rfl

end ScanLemmas

section ScanCorrect

open ChartGen

theorem matchAt_complete (ws1 ws2 name suf : List Char) (q1 q2 : Char)
    (h1 : ∀ x ∈ ws1, isPySpace x = true) (h2 : ∀ x ∈ ws2, isPySpace x = true)
    (h3 : isQuote q1 = true) (h4 : isQuote q2 = true)
    (h5 : ∀ x ∈ name, isQuote x = false) :
    matchAt (fnPat ++ ws1 ++ '=' :: (ws2 ++ q1 :: (name ++ q2 :: suf))) = some name := by
  have he : isPySpace '=' = false := rfl
  have hq1s : isPySpace q1 = false := isQuote_not_space q1 h3
  have hd1 := dropWhile_append_sat isPySpace ws1 '=' (ws2 ++ q1 :: (name ++ q2 :: suf)) h1 he
  have hd2 := dropWhile_append_sat isPySpace ws2 q1 (name ++ q2 :: suf) h2 hq1s
  have hnq2 : (fun x => !(isQuote x)) q2 = false := by simp [h4]
  have hallname : ∀ c ∈ name, (fun x => !(isQuote x)) c = true := by
    intro c hc; simp [h5 c hc]
  have hd3 := dropWhile_append_sat (fun x => !(isQuote x)) name q2 suf hallname hnq2
  have ht3 := takeWhile_append_sat (fun x => !(isQuote x)) name q2 suf hallname hnq2
  simp [matchAt, isPrefixOf_append_self, drop_append_self, hd1, hd2, hd3, ht3, h3]

theorem matchAt_sound (cs name : List Char) (h : matchAt cs = some name) :
    AssignAt cs name := by
  unfold matchAt at h
  by_cases hp : fnPat.isPrefixOf cs = true
  case neg => rw [if_neg hp] at h; cases h
  case pos =>
    rw [if_pos hp] at h
    obtain ⟨t, rfl⟩ := isPrefixOf_exists _ _ hp
    rw [drop_append_self] at h
    cases heq1 : List.dropWhile isPySpace t with
    | nil => rw [heq1] at h; cases h
    | cons c r2 =>
      rw [heq1] at h
      replace h :
          (if c = '=' then
            match List.dropWhile isPySpace r2 with
            | q :: r4 =>
              if isQuote q then
                match List.dropWhile (fun x => !(isQuote x)) r4 with
                | _ :: _ => some (List.takeWhile (fun x => !(isQuote x)) r4)
                | [] => Option.none
              else Option.none
            | [] => Option.none
          else Option.none) = some name := h
      by_cases hc : c = '='
      case neg => rw [if_neg hc] at h; cases h
      case pos =>
        subst hc
        rw [if_pos rfl] at h
        cases heq2 : List.dropWhile isPySpace r2 with
        | nil => rw [heq2] at h; cases h
        | cons q r4 =>
          rw [heq2] at h
          replace h :
              (if isQuote q then
                match List.dropWhile (fun x => !(isQuote x)) r4 with
                | _ :: _ => some (List.takeWhile (fun x => !(isQuote x)) r4)
                | [] => Option.none
              else Option.none) = some name := h
          by_cases hq : isQuote q = true
          case neg => rw [if_neg (by simpa using hq)] at h; cases h
          case pos =>
            rw [if_pos (by simpa using hq)] at h
            cases heq3 : List.dropWhile (fun x => !(isQuote x)) r4 with
            | nil => rw [heq3] at h; cases h
            | cons q2 suf =>
              rw [heq3] at h
              have hname : name = List.takeWhile (fun x => !(isQuote x)) r4 :=
                (Option.some.inj h).symm
              refine ⟨[], List.takeWhile isPySpace t, List.takeWhile isPySpace r2, suf, q, q2,
                ?_, ?_, ?_, ?_, ?_, ?_⟩
              · have et : t = List.takeWhile isPySpace t ++ '=' :: r2 := by
                  conv_lhs => rw [← takeWhile_append_dropWhile_self isPySpace t]
                  rw [heq1]
                have er2 : r2 = List.takeWhile isPySpace r2 ++ q :: r4 := by
                  conv_lhs => rw [← takeWhile_append_dropWhile_self isPySpace r2]
                  rw [heq2]
                have er4 : r4 = name ++ q2 :: suf := by
                  conv_lhs =>
                    rw [← takeWhile_append_dropWhile_self (fun x => !(isQuote x)) r4]
                  rw [heq3, hname]
                rw [List.nil_append]
                conv_lhs => rw [et, er2, er4]
                simp [List.append_assoc]
              · exact fun x hx => mem_takeWhile_sat _ _ _ hx
              · exact fun x hx => mem_takeWhile_sat _ _ _ hx
              · exact hq
              · have := dropWhile_cons_head (fun x => !(isQuote x)) r4 q2 suf heq3
                simpa using this
              · intro x hx
                rw [hname] at hx
                have := mem_takeWhile_sat _ _ _ hx
                simpa using this

end ScanCorrect

section FindAssignment

open ChartGen

theorem AssignAt_cons (c : Char) (cs name : List Char) (h : AssignAt cs name) :
    AssignAt (c :: cs) name := by
  obtain ⟨pre, ws1, ws2, suf, q1, q2, hcs, h1, h2, h3, h4, h5⟩ := h
  refine ⟨c :: pre, ws1, ws2, suf, q1, q2, ?_, h1, h2, h3, h4, h5⟩
  rw [hcs]
  simp [List.append_assoc]

theorem findAssignment_sound :
    ∀ cs name, findAssignment cs = some name → AssignAt cs name := by
  intro cs
  induction cs with
  | nil => intro name h; cases h
  | cons c rest ih =>
    intro name h
    unfold findAssignment at h
    cases hm : matchAt (c :: rest) with
    | some n2 =>
      rw [hm] at h
      have hn : n2 = name := Option.some.inj h
      rw [← hn]
      exact matchAt_sound _ _ hm
    | none =>
      rw [hm] at h
      exact AssignAt_cons c rest name (ih name h)

theorem findAssignment_of_assignAt :
    ∀ cs name, AssignAt cs name → ∃ n2, findAssignment cs = some n2 := by
  intro cs
  induction cs with
  | nil =>
    intro name h
    obtain ⟨pre, ws1, ws2, suf, q1, q2, hcs, -, -, -, -, -⟩ := h
    exact absurd hcs (by simp [fnPat])
  | cons c rest ih =>
    intro name h
    cases hm : matchAt (c :: rest) with
    | some n2 =>
      exact ⟨n2, by unfold findAssignment; rw [hm]⟩
    | none =>
      obtain ⟨pre, ws1, ws2, suf, q1, q2, hcs, h1, h2, h3, h4, h5⟩ := h
      cases pre with
      | nil =>
        exfalso
        rw [List.nil_append] at hcs
        have hfull := matchAt_complete ws1 ws2 name suf q1 q2 h1 h2 h3 h4 h5
        rw [← hcs] at hfull
        rw [hm] at hfull
        cases hfull
      | cons c2 pre2 =>
        simp only [List.cons_append, List.cons.injEq] at hcs
        obtain ⟨-, hrest⟩ := hcs
        obtain ⟨n2, hn2⟩ := ih name
          ⟨pre2, ws1, ws2, suf, q1, q2, by rw [hrest], h1, h2, h3, h4, h5⟩
        exact ⟨n2, by unfold findAssignment; rw [hm]; exact hn2⟩

end FindAssignment

/-- C9: output filename resolution scans the source for an explicit
`chart_filename = '<name>'` assignment (the regex of
`_extract_chart_filename`) and, when one occurs, returns an assigned name
found in the source; for every source with no such assignment it returns the
timestamped default `dynamic_chart_<timestamp>.png`. -/
theorem extract_chart_filename_spec (code now : String) :
    ((∃ n, ChartGen.AssignAt code.toList n) →
      ∃ n, ChartGen.AssignAt code.toList n
        ∧ ChartGen.extract_chart_filename code now = String.mk n)
    ∧ ((¬ ∃ n, ChartGen.AssignAt code.toList n) →
      ChartGen.extract_chart_filename code now = "dynamic_chart_" ++ now ++ ".png") := by
  constructor
  · rintro ⟨n, hn⟩
    obtain ⟨n2, hn2⟩ := findAssignment_of_assignAt code.toList n hn
    exact ⟨n2, findAssignment_sound _ _ hn2,
      by unfold ChartGen.extract_chart_filename; rw [hn2]⟩
  · intro hno
    unfold ChartGen.extract_chart_filename
    cases hf : ChartGen.findAssignment code.toList with
    | some n => exact absurd ⟨n, findAssignment_sound _ _ hf⟩ hno
    | none => rfl

/-- C9 witness: a source with no filename assignment resolves to the
timestamped default name. -/
theorem extract_chart_filename_spec_witness :
    ChartGen.extract_chart_filename "plt.plot(xs)" "20250101_000000"
      = "dynamic_chart_" ++ "20250101_000000" ++ ".png" := by
  apply (extract_chart_filename_spec "plt.plot(xs)" "20250101_000000").2
  rintro ⟨n, hn⟩
  obtain ⟨n2, hn2⟩ := findAssignment_of_assignAt _ n hn
  rw [show ChartGen.findAssignment ("plt.plot(xs)".toList) = Option.none from rfl] at hn2
  cases hn2
